/-
  Verification of the Real-time-risk-management backend.

  Shallow embedding of the core components:
    * `RiskEngine` (Backend/app/risk/engine.py) over exact rationals,
    * the Black-76 pricing engine (Backend/black76_model.py) over the reals,
    * the streaming pipeline's per-event bookkeeping
      (Backend/app/streaming/pathway_pipeline.py).

  Python floats are idealised as exact arithmetic (ℚ for the risk engine,
  ℝ for the pricing engine); Python `round(x, 6)` is modelled by rounding
  the rational `x * 10^6` to the nearest integer.
-/
import Mathlib

namespace RiskMgmt

/-! ## Feature sets (Backend/app/risk/engine.py)

A `FeatureSet` models the Python `Dict[str, Any]` of features: each key
enumerated in the data model is either absent (`none`) or present with a
value.  `Option.getD` mirrors Python's `features.get(key, default)`. -/

structure FeatureSet where
  velocity         : Option ℚ      := none
  amount           : Option ℚ      := none
  anomaly_score    : Option ℚ      := none
  reputation       : Option ℚ      := none
  unusual_pattern  : Option Bool   := none
  blacklist_match  : Option Bool   := none
  delta            : Option ℚ      := none
  gamma            : Option ℚ      := none
  theta            : Option ℚ      := none
  vega             : Option ℚ      := none
  implied_vol      : Option ℚ      := none
  spot_price       : Option ℚ      := none
  bid_ask_spread   : Option ℚ      := none
  liquidity_score  : Option ℚ      := none
  market_session   : Option String := none
  price_change_pct : Option ℚ      := none
  deriving DecidableEq, Repr

/-- Python `round(x, 6)` (round to 6 decimal places), idealised on ℚ. -/
def round6 (q : ℚ) : ℚ := (round (q * 1000000) : ℚ) / 1000000

namespace RiskEngine

/-! Core transaction feature weights (`_TXN_WEIGHTS`, must sum to 1.0). -/

def txnW_velocity : ℚ := 30 / 100
def txnW_amount : ℚ := 25 / 100
def txnW_anomaly_score : ℚ := 25 / 100
def txnW_reputation : ℚ := 20 / 100

/-! Market / derivatives feature weights (`_MARKET_WEIGHTS`). -/

def mktW_implied_vol : ℚ := 30 / 100
def mktW_gamma_risk : ℚ := 20 / 100
def mktW_delta_risk : ℚ := 15 / 100
def mktW_liquidity_risk : ℚ := 15 / 100
def mktW_session_risk : ℚ := 10 / 100
def mktW_price_change_risk : ℚ := 10 / 100

/-- Blend ratio `_MARKET_BLEND`: 70% transaction, 30% market. -/
def MARKET_BLEND : ℚ := 30 / 100

/-- `RiskEngine._transaction_score`: base transaction/behavioural risk score.
Uses velocity, amount, anomaly_score, reputation with fixed weights. -/
def transaction_score (f : FeatureSet) : ℚ :=
  let score : ℚ := 0
  let velocity := f.velocity.getD 0
  let score := score + min (velocity / 100) 1 * txnW_velocity
  let amount := f.amount.getD 0
  let score := score + min (amount / 10000) 1 * txnW_amount
  let anomaly := f.anomaly_score.getD 0
  let score := score + anomaly * txnW_anomaly_score
  let reputation := f.reputation.getD 1
  let score := score + (1 - reputation) * txnW_reputation
  min score 1

/-- Membership test `any(k in features for k in market_keys)` with
`market_keys = delta, gamma, implied_vol, spot_price, bid_ask_spread`. -/
def has_market_features (f : FeatureSet) : Bool :=
  f.delta.isSome || f.gamma.isSome || f.implied_vol.isSome ||
    f.spot_price.isSome || f.bid_ask_spread.isSome

/-- Session-risk lookup table of `RiskEngine._market_score`. -/
def session_risk (s : String) : ℚ :=
  if s = "open" then 0
  else if s = "pre_open" then 1 / 2
  else if s = "closed" then 1
  else 1 / 5

/-- `RiskEngine._market_score`: market-risk sub-score from derivatives and
volatility features; 0 when no market feature key is present. -/
def market_score (f : FeatureSet) : ℚ :=
  if has_market_features f = false then 0
  else
    let score : ℚ := 0
    let iv := f.implied_vol.getD 0
    let iv_score := min (max (iv - 10 / 100) 0 / (40 / 100)) 1
    let score := score + iv_score * mktW_implied_vol
    let gamma := |f.gamma.getD 0|
    let gamma_score := min (gamma / (5 / 100)) 1
    let score := score + gamma_score * mktW_gamma_risk
    let delta := |f.delta.getD 0|
    let delta_score := min delta 1
    let score := score + delta_score * mktW_delta_risk
    let liq_score :=
      match f.bid_ask_spread with
      | some spread => min (spread / (1 / 2)) 1
      | none => 1 - f.liquidity_score.getD 1
    let score := score + liq_score * mktW_liquidity_risk
    let session := f.market_session.getD "open"
    let score := score + session_risk session * mktW_session_risk
    let pct_change := |f.price_change_pct.getD 0|
    let price_score := min (pct_change / 5) 1
    let score := score + price_score * mktW_price_change_risk
    min score 1

/-- The `score` variable of `RiskEngine.calculate_risk_score` right after the
blend step and before the hard-flag overrides. -/
def pre_override_score (f : FeatureSet) : ℚ :=
  let txn := transaction_score f
  let mkt := market_score f
  if 0 < mkt then (1 - MARKET_BLEND) * txn + MARKET_BLEND * mkt else txn

/-- `RiskEngine.calculate_risk_score`: composite risk score with the
blacklist and unusual-pattern hard overrides, clamped and rounded. -/
def calculate_risk_score (f : FeatureSet) : ℚ :=
  let score := pre_override_score f
  let score := if f.blacklist_match.getD false then max score (95 / 100) else score
  let score := if f.unusual_pattern.getD false then min (score + 15 / 100) 1 else score
  round6 (min score 1)

/-- `RiskEngine.classify_risk_level`: classify a score into
critical / high / medium / low using the configured thresholds. -/
def classify_risk_level (high_threshold medium_threshold : ℚ) (risk_score : ℚ) : String :=
  if 90 / 100 ≤ risk_score then "critical"
  else if high_threshold ≤ risk_score then "high"
  else if medium_threshold ≤ risk_score then "medium"
  else "low"

/-- Rank of a risk level in the ordering low < medium < high < critical. -/
def level_rank (level : String) : ℕ :=
  if level = "critical" then 3
  else if level = "high" then 2
  else if level = "medium" then 1
  else 0

end RiskEngine

/-- A `FeatureSet` is valid when every present value lies in the range the
data model gives it: velocities, amounts and anomaly scores are
non-negative, anomaly and reputation scores sit in [0, 1], bid-ask spreads
are non-negative and liquidity scores sit in [0, 1]. -/
def ValidFeatures (f : FeatureSet) : Prop :=
  0 ≤ f.velocity.getD 0 ∧ 0 ≤ f.amount.getD 0 ∧
    0 ≤ f.anomaly_score.getD 0 ∧ f.anomaly_score.getD 0 ≤ 1 ∧
    0 ≤ f.reputation.getD 1 ∧ f.reputation.getD 1 ≤ 1 ∧
    0 ≤ f.bid_ask_spread.getD 0 ∧
    0 ≤ f.liquidity_score.getD 1 ∧ f.liquidity_score.getD 1 ≤ 1

instance (f : FeatureSet) : Decidable (ValidFeatures f) := by
  unfold ValidFeatures; infer_instance

/-! ## Black-76 options pricing engine (Backend/black76_model.py)

The engine works on Python floats; we idealise them as real numbers.
`scipy.stats.norm.pdf`/`norm.cdf` are the standard normal density and
cumulative distribution function. -/

/-- Errors raised by `Black76Calculator`: the two explicit `ValueError`
guards of `_calculate_d1_d2`, the invalid-option-type `ValueError` of
`calculate_option_price`, and the `ZeroDivisionError` that Python float
division raises in `spot_price / strike_price` when the strike is zero. -/
inductive PricingError where
  | invalidTime
  | invalidVol
  | invalidOptionType
  | zeroDivision
  deriving DecidableEq, Repr

/-- Result record of `Black76Calculator.calculate_all_greeks`. -/
structure Greeks where
  price : ℝ
  delta : ℝ
  gamma : ℝ
  vega  : ℝ
  theta : ℝ
  rho   : ℝ

/-- Python's `str.lower()` on ASCII option-type strings (kernel-reducible
replacement for `String.toLower`). -/
def py_lower (s : String) : String := String.mk (s.data.map Char.toLower)

namespace Black76

noncomputable section

/-- Standard normal probability density function (`scipy.stats.norm.pdf`). -/
def normPdf (x : ℝ) : ℝ := (Real.sqrt (2 * Real.pi))⁻¹ * Real.exp (-(x ^ 2) / 2)

/-- Standard normal cumulative distribution function (`scipy.stats.norm.cdf`). -/
def normCdf (x : ℝ) : ℝ :=
  (Real.sqrt (2 * Real.pi))⁻¹ * ∫ t in Set.Iic x, Real.exp (-(t ^ 2) / 2)

/-- The d1 parameter of the Black-76 formula.  This is the closed-form value
only; it is meaningful for spot, strike > 0 and is referenced exclusively
behind the guards of `calculate_d1_d2`, which rejects a zero strike the way
the Python division does.  (Python returns nan for a negative ratio under
`np.log` without raising; nan has no real-number counterpart, so theorems
about prices assume spot, strike > 0.) -/
def d1 (F K T σ : ℝ) : ℝ :=
  (Real.log (F / K) + σ ^ 2 / 2 * T) / (σ * Real.sqrt T)

/-- The d2 parameter of the Black-76 formula. -/
def d2 (F K T σ : ℝ) : ℝ := d1 F K T σ - σ * Real.sqrt T

/-- `Black76Calculator._calculate_d1_d2`: guards against non-positive time
to expiry and volatility; the Python float division `spot_price /
strike_price` then raises `ZeroDivisionError` when the strike is zero;
otherwise returns (d1, d2). -/
def calculate_d1_d2 (F K T σ : ℝ) : Except PricingError (ℝ × ℝ) :=
  if T ≤ 0 then .error .invalidTime
  else if σ ≤ 0 then .error .invalidVol
  else if K = 0 then .error .zeroDivision
  else .ok (d1 F K T σ, d2 F K T σ)

/-- `Black76Calculator.calculate_option_price`. -/
def calculate_option_price (F K T σ r : ℝ) (option_type : String) :
    Except PricingError ℝ :=
  (calculate_d1_d2 F K T σ).bind fun d =>
    let discount := Real.exp (-r * T)
    if py_lower option_type = "call" then
      .ok (discount * (F * normCdf d.1 - K * normCdf d.2))
    else if py_lower option_type = "put" then
      .ok (discount * (K * normCdf (-d.2) - F * normCdf (-d.1)))
    else .error .invalidOptionType

/-- `Black76Calculator.calculate_delta` (any non-call option type falls into
the put branch, as in the source). -/
def calculate_delta (F K T σ r : ℝ) (option_type : String) :
    Except PricingError ℝ :=
  (calculate_d1_d2 F K T σ).bind fun d =>
    let discount := Real.exp (-r * T)
    if py_lower option_type = "call" then .ok (discount * normCdf d.1)
    else .ok (-(discount * normCdf (-d.1)))

/-- `Black76Calculator.calculate_gamma`. -/
def calculate_gamma (F K T σ r : ℝ) : Except PricingError ℝ :=
  (calculate_d1_d2 F K T σ).bind fun d =>
    let discount := Real.exp (-r * T)
    .ok (discount * normPdf d.1 / (F * σ * Real.sqrt T))

/-- `Black76Calculator.calculate_vega` (scaled per 1% volatility change). -/
def calculate_vega (F K T σ r : ℝ) : Except PricingError ℝ :=
  (calculate_d1_d2 F K T σ).bind fun d =>
    let discount := Real.exp (-r * T)
    .ok (discount * F * normPdf d.1 * Real.sqrt T / 100)

/-- `Black76Calculator.calculate_theta` (per calendar day). -/
def calculate_theta (F K T σ r : ℝ) (option_type : String) :
    Except PricingError ℝ :=
  (calculate_d1_d2 F K T σ).bind fun d =>
    let discount := Real.exp (-r * T)
    let term1 := -(discount * F * normPdf d.1 * σ) / (2 * Real.sqrt T)
    if py_lower option_type = "call" then
      .ok ((term1 - r * discount * K * normCdf d.2) / 365)
    else
      .ok ((term1 + r * discount * K * normCdf (-d.2)) / 365)

/-- `Black76Calculator.calculate_rho` (per 1% rate change). -/
def calculate_rho (F K T σ r : ℝ) (option_type : String) :
    Except PricingError ℝ :=
  (calculate_d1_d2 F K T σ).bind fun d =>
    let discount := Real.exp (-r * T)
    if py_lower option_type = "call" then
      .ok (T * discount * K * normCdf d.2 / 100)
    else
      .ok (-(T * discount * K * normCdf (-d.2)) / 100)

/-- `Black76Calculator.calculate_all_greeks`: price plus all Greeks; the
Python try/except re-raises, so any sub-computation error propagates. -/
def calculate_all_greeks (F K T σ r : ℝ) (option_type : String) :
    Except PricingError Greeks := do
  let price ← calculate_option_price F K T σ r option_type
  let delta ← calculate_delta F K T σ r option_type
  let gamma ← calculate_gamma F K T σ r
  let vega ← calculate_vega F K T σ r
  let theta ← calculate_theta F K T σ r option_type
  let rho ← calculate_rho F K T σ r option_type
  return ⟨price, delta, gamma, vega, theta, rho⟩

end

end Black76

/-! ## Streaming pipeline bookkeeping
(Backend/app/streaming/pathway_pipeline.py)

The per-event step interacts with external collaborators (database,
audit log, alert service, WebSocket broadcast).  Their outcomes are
supplied as an `ExternalOutcomes` environment: each field records whether
the corresponding call returns normally or raises. -/

/-- `events_processed` / `errors_count` counters of the pipeline. -/
structure PipelineStats where
  events_processed : ℕ
  errors_count     : ℕ
  deriving DecidableEq, Repr

/-- One event produced by the simulator. -/
structure MarketEvent where
  entity_id   : String
  entity_type : String
  features    : FeatureSet
  deriving DecidableEq, Repr

/-- Outcomes of the external collaborator calls made while processing one
event: persistence (returns the assigned row id), audit logging, alert
creation, and the WebSocket broadcast hand-off. -/
structure ExternalOutcomes where
  persist   : Except String ℕ
  audit     : Except String Unit
  alert     : Except String Unit
  broadcast : Except String Unit

namespace Pipeline

open RiskEngine

/-- `PathwayPipeline._process_event` (threading-fallback strategy; the
Pathway sink `_on_risk_output` has the same structure): score the event,
then run persist → audit → alert (only for high/critical) → broadcast
(only when a WebSocket manager is attached) inside a try/except that turns
any failure into an `errors_count` increment; on success `events_processed`
is incremented.  The function is total: no outcome escapes it. -/
def process_event (high_threshold medium_threshold : ℚ) (ext : ExternalOutcomes)
    (has_manager : Bool) (ev : MarketEvent) (s : PipelineStats) : PipelineStats :=
  let risk_score := calculate_risk_score ev.features
  let risk_level := classify_risk_level high_threshold medium_threshold risk_score
  match ext.persist with
  | .error _ => ⟨s.events_processed, s.errors_count + 1⟩
  | .ok _ =>
    match ext.audit with
    | .error _ => ⟨s.events_processed, s.errors_count + 1⟩
    | .ok _ =>
      match (if risk_level = "high" || risk_level = "critical" then ext.alert
             else .ok ()) with
      | .error _ => ⟨s.events_processed, s.errors_count + 1⟩
      | .ok _ =>
        match (if has_manager then ext.broadcast else .ok ()) with
        | .error _ => ⟨s.events_processed, s.errors_count + 1⟩
        | .ok _ => ⟨s.events_processed + 1, s.errors_count⟩

/-- One iteration of the `start_simulation` loop: a simulator failure is
caught by the outer try/except and increments `errors_count`; otherwise the
generated event is processed. -/
structure Tick where
  gen         : Except String MarketEvent
  ext         : ExternalOutcomes
  has_manager : Bool

/-- One pass of the fallback run loop body. -/
def run_tick (high_threshold medium_threshold : ℚ) (t : Tick) (s : PipelineStats) :
    PipelineStats :=
  match t.gen with
  | .error _ => ⟨s.events_processed, s.errors_count + 1⟩
  | .ok ev => process_event high_threshold medium_threshold t.ext t.has_manager ev s

/-- The fallback run loop over a finite trace of ticks. -/
def run_loop (high_threshold medium_threshold : ℚ) (ticks : List Tick)
    (s : PipelineStats) : PipelineStats :=
  ticks.foldl (fun st t => run_tick high_threshold medium_threshold t st) s

end Pipeline

/-! ## Broadcast messages
(`_process_event` and `_on_risk_output` in pathway_pipeline.py) -/

/-- Values appearing in a broadcast message. -/
inductive JsonVal where
  | jstr (s : String)
  | jnum (q : ℚ)
  | jbool (b : Bool)
  | jarr (xs : List String)
  | jfeatures (f : FeatureSet)
  deriving DecidableEq, Repr

/-- A WebSocket broadcast message: a `type` tag and a JSON object `data`
represented as an association list in source order. -/
structure BroadcastMessage where
  type : String
  data : List (String × JsonVal)
  deriving DecidableEq, Repr

/-- The message built by the Pathway sink `_on_risk_output` before
`websocket_manager.broadcast`. -/
def pathway_broadcast_message (risk_id : ℕ) (entity_id entity_type : String)
    (risk_score : ℚ) (risk_level : String) (features : FeatureSet)
    (risk_factors : List String) (timestamp : String) : BroadcastMessage where
  type := "risk_update"
  data :=
    [("id", .jnum risk_id),
     ("entity_id", .jstr entity_id),
     ("entity_type", .jstr entity_type),
     ("risk_score", .jnum risk_score),
     ("risk_level", .jstr risk_level),
     ("confidence", .jnum (features.reputation.getD (85 / 100))),
     ("features", .jfeatures features),
     ("risk_factors", .jarr risk_factors),
     ("source", .jstr "pathway_stream"),
     ("timestamp", .jstr timestamp)]

/-- The message built by the threading-fallback `_process_event` before
`websocket_manager.broadcast`. -/
def fallback_broadcast_message (risk_id : ℕ) (entity_id entity_type : String)
    (risk_score : ℚ) (risk_level : String) (features : FeatureSet)
    (risk_factors : List String) (timestamp : String) : BroadcastMessage where
  type := "risk_update"
  data :=
    [("id", .jnum risk_id),
     ("entity_id", .jstr entity_id),
     ("entity_type", .jstr entity_type),
     ("risk_score", .jnum risk_score),
     ("risk_level", .jstr risk_level),
     ("confidence", .jnum (features.reputation.getD (85 / 100))),
     ("features", .jfeatures features),
     ("risk_factors", .jarr risk_factors),
     ("source", .jstr "fallback_stream"),
     ("timestamp", .jstr timestamp)]

/-- The keys of the `data` object of a broadcast message. -/
def data_keys (m : BroadcastMessage) : List String := m.data.map Prod.fst

/-- Modelled from the spec: the `data` keys the specification enumerates in
its broadcast message shape (section 6), in the spec's order. -/
def spec_broadcast_data_keys : List String :=
  ["id", "entity_id", "entity_type", "risk_score", "risk_level",
   "risk_factors", "features", "source", "timestamp"]

/-! ## Concrete feature sets used by witnesses and counterexamples -/

/-- A valid transaction-only feature set (witness input for the score
bounds). -/
def exBounds : FeatureSet :=
  { velocity := some 85
    amount := some 7500
    anomaly_score := some (1 / 10)
    reputation := some (9 / 10) }

/-- A feature set with a blacklist match and otherwise low-risk features. -/
def exBlacklist : FeatureSet :=
  { velocity := some 1
    blacklist_match := some true }

/-- A feature set whose transaction sub-score is 0.40 and whose market
sub-score is 0.80. -/
def exBlend : FeatureSet :=
  { velocity := some 100
    amount := some 4000
    implied_vol := some (1 / 2)
    gamma := some (5 / 100)
    delta := some 1
    bid_ask_spread := some (1 / 2) }

/-- Pre-override score 0.50 with both hard-override flags set. -/
def exBothFlags : FeatureSet :=
  { velocity := some 100
    amount := some 8000
    unusual_pattern := some true
    blacklist_match := some true }

/-- Pre-override score 0.50 with only the unusual-pattern flag set. -/
def exUnusual : FeatureSet :=
  { velocity := some 100
    amount := some 8000
    unusual_pattern := some true }

/-! ## Helper lemmas on rounding and the sub-scores -/

lemma round6_mono {a b : ℚ} (h : a ≤ b) : round6 a ≤ round6 b := by
  unfold round6
  have h1 : round (a * 1000000) ≤ round (b * 1000000) := by
    rw [round_eq, round_eq]
    exact Int.floor_mono (by linarith)
  have h2 : ((round (a * 1000000) : ℤ) : ℚ) ≤ ((round (b * 1000000) : ℤ) : ℚ) :=
    Int.cast_le.mpr h1
  linarith

lemma round6_zero : round6 0 = 0 := by
  unfold round6; norm_num

lemma round6_one : round6 1 = 1 := by
  unfold round6
  rw [round_eq]
  norm_num

lemma round6_p95 : round6 (95 / 100) = 95 / 100 := by
  unfold round6
  rw [round_eq]
  norm_num

lemma round6_nonneg {q : ℚ} (h : 0 ≤ q) : 0 ≤ round6 q := by
  have := round6_mono h; rwa [round6_zero] at this

lemma round6_le_one {q : ℚ} (h : q ≤ 1) : round6 q ≤ 1 := by
  have := round6_mono h; rwa [round6_one] at this

namespace RiskEngine

lemma session_risk_nonneg (s : String) : 0 ≤ session_risk s := by
  unfold session_risk; split_ifs <;> norm_num

lemma transaction_score_le_one (f : FeatureSet) : transaction_score f ≤ 1 := by
  simp only [transaction_score]
  exact min_le_right _ _

lemma transaction_score_nonneg (f : FeatureSet)
    (hv : 0 ≤ f.velocity.getD 0) (ha : 0 ≤ f.amount.getD 0)
    (han : 0 ≤ f.anomaly_score.getD 0) (hr : f.reputation.getD 1 ≤ 1) :
    0 ≤ transaction_score f := by
  simp only [transaction_score, txnW_velocity, txnW_amount, txnW_anomaly_score,
    txnW_reputation]
  refine le_min ?_ zero_le_one
  have h1 : 0 ≤ min (f.velocity.getD 0 / 100) 1 := le_min (by positivity) zero_le_one
  have h2 : 0 ≤ min (f.amount.getD 0 / 10000) 1 := le_min (by positivity) zero_le_one
  nlinarith

lemma market_score_le_one (f : FeatureSet) : market_score f ≤ 1 := by
  simp only [market_score]
  split_ifs with h
  · norm_num
  · exact min_le_right _ _

lemma market_score_nonneg (f : FeatureSet)
    (hsp : 0 ≤ f.bid_ask_spread.getD 0) (hl : f.liquidity_score.getD 1 ≤ 1) :
    0 ≤ market_score f := by
  simp only [market_score, mktW_implied_vol, mktW_gamma_risk, mktW_delta_risk,
    mktW_liquidity_risk, mktW_session_risk, mktW_price_change_risk]
  split_ifs with h
  · exact le_rfl
  · refine le_min ?_ zero_le_one
    have h1 : 0 ≤ min (max (f.implied_vol.getD 0 - 10 / 100) 0 / (40 / 100)) 1 :=
      le_min (by positivity) zero_le_one
    have h2 : 0 ≤ min (|f.gamma.getD 0| / (5 / 100)) 1 := le_min (by positivity) zero_le_one
    have h3 : 0 ≤ min (|f.delta.getD 0|) 1 := le_min (abs_nonneg _) zero_le_one
    have h4 : 0 ≤ (match f.bid_ask_spread with
        | some spread => min (spread / (1 / 2)) 1
        | none => 1 - f.liquidity_score.getD 1) := by
      cases hb : f.bid_ask_spread with
      | some spread =>
        rw [hb] at hsp
        simp only [Option.getD] at hsp
        exact le_min (by positivity) zero_le_one
      | none => linarith
    have h5 : 0 ≤ session_risk (f.market_session.getD "open") := session_risk_nonneg _
    have h6 : 0 ≤ min (|f.price_change_pct.getD 0| / 5) 1 :=
      le_min (by positivity) zero_le_one
    nlinarith

lemma pre_override_score_le_one (f : FeatureSet) : pre_override_score f ≤ 1 := by
  simp only [pre_override_score, MARKET_BLEND]
  have ht := transaction_score_le_one f
  have hm := market_score_le_one f
  split_ifs with h
  · linarith
  · exact ht

lemma pre_override_score_nonneg (f : FeatureSet) (h : ValidFeatures f) :
    0 ≤ pre_override_score f := by
  obtain ⟨hv, ha, han, _, _, hr, hsp, _, hl⟩ := h
  have ht := transaction_score_nonneg f hv ha han hr
  have hm := market_score_nonneg f hsp hl
  simp only [pre_override_score, MARKET_BLEND]
  split_ifs with hpos
  · linarith
  · exact ht

end RiskEngine

/-! ## Claims about the risk engine -/

open RiskEngine

/-- C1: for every valid `FeatureSet` the risk score returned by
`RiskEngine.calculate_risk_score` satisfies 0.0 ≤ score ≤ 1.0. -/
theorem risk_score_bounds (f : FeatureSet) (h : ValidFeatures f) :
    0 ≤ calculate_risk_score f ∧ calculate_risk_score f ≤ 1 := by
  have hP0 : 0 ≤ pre_override_score f := pre_override_score_nonneg f h
  have hP1 : pre_override_score f ≤ 1 := pre_override_score_le_one f
  have hmax95 := le_max_right (pre_override_score f) ((95 : ℚ) / 100)
  simp only [calculate_risk_score]
  split_ifs
  all_goals refine ⟨round6_nonneg (le_min ?_ zero_le_one), round6_le_one (min_le_right _ _)⟩
  all_goals first
    | exact le_min (by linarith) zero_le_one
    | exact le_trans (by norm_num) hmax95
    | exact hP0

/-- Witness for C1 at a concrete valid feature set. -/
theorem risk_score_bounds_witness :
    ValidFeatures exBounds ∧
      0 ≤ calculate_risk_score exBounds ∧ calculate_risk_score exBounds ≤ 1 := by
  have hval : ValidFeatures exBounds := by
    simp only [ValidFeatures, exBounds, Option.getD]
    norm_num
  exact ⟨hval, risk_score_bounds exBounds hval⟩

/-- C2: whenever `blacklist_match` is truthy, the calculated risk score is at
least 0.95, whatever the other features are. -/
theorem blacklist_override (f : FeatureSet)
    (h : f.blacklist_match.getD false = true) :
    95 / 100 ≤ calculate_risk_score f := by
  have hP1 : pre_override_score f ≤ 1 := pre_override_score_le_one f
  have hmax : (95 : ℚ) / 100 ≤ max (pre_override_score f) (95 / 100) := le_max_right _ _
  simp only [calculate_risk_score, h, eq_self_iff_true, if_true]
  split_ifs with hu
  · have h1 : min (max (pre_override_score f) (95 / 100) + 15 / 100) 1 = 1 :=
      min_eq_right (by linarith)
    rw [h1, min_self, round6_one]
    norm_num
  · have h1 : (95 : ℚ) / 100 ≤ min (max (pre_override_score f) (95 / 100)) 1 :=
      le_min hmax (by norm_num)
    have h2 := round6_mono h1
    rwa [round6_p95] at h2

/-- Witness for C2: a concrete blacklisted feature set. -/
theorem blacklist_override_witness :
    exBlacklist.blacklist_match.getD false = true ∧
      95 / 100 ≤ calculate_risk_score exBlacklist :=
  ⟨rfl, blacklist_override exBlacklist rfl⟩

/-- C3: with no override flag set, a strictly positive market sub-score M is
blended as round(0.7·T + 0.3·M, 6), and a zero market sub-score leaves the
pre-override score equal to the transaction sub-score T. -/
theorem market_blend (f : FeatureSet)
    (hb : f.blacklist_match.getD false = false)
    (hu : f.unusual_pattern.getD false = false) :
    (0 < market_score f →
      calculate_risk_score f =
        round6 (7 / 10 * transaction_score f + 3 / 10 * market_score f)) ∧
    (market_score f = 0 →
      pre_override_score f = transaction_score f ∧
        calculate_risk_score f = round6 (transaction_score f)) := by
  have hP1 : pre_override_score f ≤ 1 := pre_override_score_le_one f
  simp only [calculate_risk_score, hb, hu, Bool.false_eq_true, if_false]
  rw [min_eq_left hP1]
  constructor
  · intro hm
    simp only [pre_override_score, MARKET_BLEND, if_pos hm]
    norm_num
  · intro hm
    have hpre : pre_override_score f = transaction_score f := by
      simp only [pre_override_score, MARKET_BLEND, hm]
      norm_num
    exact ⟨hpre, by rw [hpre]⟩

/-- Witness for C3: `exBlend` has T = 0.40 and M = 0.80, and its final score
is 0.52. -/
theorem market_blend_witness :
    0 < market_score exBlend ∧ transaction_score exBlend = 2 / 5 ∧
      market_score exBlend = 4 / 5 ∧ calculate_risk_score exBlend = 13 / 25 := by
  have ht : transaction_score exBlend = 2 / 5 := by
    simp only [transaction_score, exBlend, txnW_velocity, txnW_amount,
      txnW_anomaly_score, txnW_reputation, Option.getD]
    norm_num [min_def]
  have hm : market_score exBlend = 4 / 5 := by
    simp only [market_score, has_market_features, session_risk, exBlend,
      mktW_implied_vol, mktW_gamma_risk, mktW_delta_risk, mktW_liquidity_risk,
      mktW_session_risk, mktW_price_change_risk, Option.getD, Option.isSome]
    norm_num [min_def, max_def, abs_of_nonneg]
  have happ := (market_blend exBlend rfl rfl).1 (by rw [hm]; norm_num)
  refine ⟨by rw [hm]; norm_num, ht, hm, ?_⟩
  rw [happ, ht, hm]
  unfold round6
  rw [round_eq]
  norm_num

/-- C4 counterexample: with both `unusual_pattern` and `blacklist_match` set
and a pre-override score of 0.50, the code returns 1.0, not the claimed
pre-override score + 0.15 capped at 1.0 (which would be 0.65). -/
theorem unusual_pattern_cex :
    calculate_risk_score exBothFlags = 1 ∧
      min (pre_override_score exBothFlags + 15 / 100) 1 = 13 / 20 ∧
      calculate_risk_score exBothFlags ≠
        min (pre_override_score exBothFlags + 15 / 100) 1 := by
  have hpre : pre_override_score exBothFlags = 1 / 2 := by
    simp only [pre_override_score, MARKET_BLEND, market_score, has_market_features,
      transaction_score, exBothFlags, txnW_velocity, txnW_amount, txnW_anomaly_score,
      txnW_reputation, Option.getD, Option.isSome]
    norm_num [min_def]
  have hbl : exBothFlags.blacklist_match.getD false = true := rfl
  have hun : exBothFlags.unusual_pattern.getD false = true := rfl
  have hcalc : calculate_risk_score exBothFlags = 1 := by
    simp only [calculate_risk_score, hbl, hun, eq_self_iff_true, if_true]
    rw [hpre]
    norm_num [max_def, min_def, round6_one]
  refine ⟨hcalc, by rw [hpre]; norm_num [min_def], ?_⟩
  rw [hcalc, hpre]
  norm_num [min_def]

/-- C4 amended: when `unusual_pattern` is set and `blacklist_match` is not,
the final score is round(min(pre-override + 0.15, 1.0), 6); when
`blacklist_match` is also set, the blacklist floor of 0.95 is applied first
and the final score is always 1.0. -/
theorem unusual_pattern_boost (f : FeatureSet)
    (hu : f.unusual_pattern.getD false = true) :
    (f.blacklist_match.getD false = false →
      calculate_risk_score f = round6 (min (pre_override_score f + 15 / 100) 1)) ∧
    (f.blacklist_match.getD false = true → calculate_risk_score f = 1) := by
  constructor
  · intro hb
    simp only [calculate_risk_score, hb, hu, Bool.false_eq_true, if_false,
      eq_self_iff_true, if_true]
    rw [min_assoc, min_self]
  · intro hb
    simp only [calculate_risk_score, hb, hu, eq_self_iff_true, if_true]
    have h1 : min (max (pre_override_score f) (95 / 100) + 15 / 100) 1 = 1 :=
      min_eq_right (by linarith [le_max_right (pre_override_score f) ((95 : ℚ) / 100)])
    rw [h1, min_self, round6_one]

/-- Witness for the amended C4: base score 0.50 with only the
unusual-pattern flag gives 0.65. -/
theorem unusual_pattern_boost_witness :
    calculate_risk_score exUnusual = 13 / 20 := by
  have happ := (unusual_pattern_boost exUnusual rfl).1 rfl
  have hpre : pre_override_score exUnusual = 1 / 2 := by
    simp only [pre_override_score, MARKET_BLEND, market_score, has_market_features,
      transaction_score, exUnusual, txnW_velocity, txnW_amount, txnW_anomaly_score,
      txnW_reputation, Option.getD, Option.isSome]
    norm_num [min_def]
  rw [happ, hpre]
  unfold round6
  rw [round_eq]
  norm_num

/-- C8: for any fixed thresholds, risk-level classification is monotone in
the score under the ordering low < medium < high < critical. -/
theorem classify_monotone (high_t medium_t s1 s2 : ℚ) (h : s1 ≤ s2) :
    level_rank (classify_risk_level high_t medium_t s1) ≤
      level_rank (classify_risk_level high_t medium_t s2) := by
  simp only [classify_risk_level]
  split_ifs <;> first
    | (exfalso; linarith)
    | decide

/-- Witness for C8 at concrete thresholds and scores. -/
theorem classify_monotone_witness :
    level_rank (classify_risk_level (7 / 10) (4 / 10) (1 / 2)) ≤
      level_rank (classify_risk_level (7 / 10) (4 / 10) (3 / 4)) :=
  classify_monotone (7 / 10) (4 / 10) (1 / 2) (3 / 4) (by norm_num)

/-! ## Claims about the streaming pipeline -/

/-- Processing one event either increments `events_processed` by exactly one
(all steps succeeded) or increments `errors_count` by exactly one (some step
failed); no other outcome exists. -/
lemma process_event_step (high_t medium_t : ℚ) (ext : ExternalOutcomes)
    (mgr : Bool) (ev : MarketEvent) (s : PipelineStats) :
    Pipeline.process_event high_t medium_t ext mgr ev s =
        ⟨s.events_processed + 1, s.errors_count⟩ ∨
      Pipeline.process_event high_t medium_t ext mgr ev s =
        ⟨s.events_processed, s.errors_count + 1⟩ := by
  simp only [Pipeline.process_event]
  rcases hp : ext.persist with e | id1
  · exact Or.inr rfl
  rcases ha : ext.audit with e | u
  · exact Or.inr rfl
  rcases hA : ext.alert with e | u2 <;>
    rcases hB : ext.broadcast with e | u3 <;>
      split_ifs <;>
        first
          | exact Or.inl rfl
          | exact Or.inr rfl

/-- One loop tick either increments `events_processed` by exactly one or
increments `errors_count` by exactly one. -/
lemma run_tick_step (high_t medium_t : ℚ) (t : Pipeline.Tick) (s : PipelineStats) :
    Pipeline.run_tick high_t medium_t t s =
        ⟨s.events_processed + 1, s.errors_count⟩ ∨
      Pipeline.run_tick high_t medium_t t s =
        ⟨s.events_processed, s.errors_count + 1⟩ := by
  simp only [Pipeline.run_tick]
  rcases hg : t.gen with e | ev
  · exact Or.inr rfl
  · exact process_event_step high_t medium_t t.ext t.has_manager ev s

/-- C9: per processed event exactly one of `events_processed`/`errors_count`
is incremented, by exactly one; the per-event step is a total function (no
outcome of the score-persist-audit-alert-broadcast sequence escapes it), and
over any run-loop trace both counters are monotonically non-decreasing. -/
theorem pipeline_event_isolation :
    (∀ (high_t medium_t : ℚ) (ext : ExternalOutcomes) (mgr : Bool)
        (ev : MarketEvent) (s : PipelineStats),
      Pipeline.process_event high_t medium_t ext mgr ev s =
          ⟨s.events_processed + 1, s.errors_count⟩ ∨
        Pipeline.process_event high_t medium_t ext mgr ev s =
          ⟨s.events_processed, s.errors_count + 1⟩) ∧
    (∀ (high_t medium_t : ℚ) (ticks : List Pipeline.Tick) (s : PipelineStats),
      s.events_processed ≤
          (Pipeline.run_loop high_t medium_t ticks s).events_processed ∧
        s.errors_count ≤ (Pipeline.run_loop high_t medium_t ticks s).errors_count) := by
  constructor
  · exact process_event_step
  · intro high_t medium_t ticks
    induction ticks with
    | nil => exact fun s => ⟨le_rfl, le_rfl⟩
    | cons t ts ih =>
      intro s
      have hstep := run_tick_step high_t medium_t t s
      have hloop : Pipeline.run_loop high_t medium_t (t :: ts) s =
          Pipeline.run_loop high_t medium_t ts (Pipeline.run_tick high_t medium_t t s) :=
        rfl
      rw [hloop]
      have hrec := ih (Pipeline.run_tick high_t medium_t t s)
      rcases hstep with h | h <;> rw [h] at hrec ⊢ <;>
        exact ⟨le_trans (by simp) hrec.1, le_trans (by simp) hrec.2⟩

/-- C10 counterexample: the `data` object of a broadcast message carries a
`confidence` key which the claimed key list does not contain, under both
execution strategies. -/
theorem broadcast_shape_cex :
    "confidence" ∈
        data_keys (pathway_broadcast_message 1 "nifty" "instrument" 0 "low" {} [] "t0") ∧
      "confidence" ∈
        data_keys (fallback_broadcast_message 1 "nifty" "instrument" 0 "low" {} [] "t0") ∧
      "confidence" ∉ spec_broadcast_data_keys ∧
      data_keys (pathway_broadcast_message 1 "nifty" "instrument" 0 "low" {} [] "t0") ≠
        spec_broadcast_data_keys := by
  refine ⟨?_, ?_, ?_, ?_⟩ <;> decide

/-- C10 amended: under both strategies every broadcast message has type
"risk_update" and a `data` object with exactly the keys id, entity_id,
entity_type, risk_score, risk_level, confidence, features, risk_factors,
source, timestamp, in source order. -/
theorem broadcast_message_shape (risk_id : ℕ) (eid ety : String) (sc : ℚ)
    (lvl : String) (f : FeatureSet) (factors : List String) (ts : String) :
    (pathway_broadcast_message risk_id eid ety sc lvl f factors ts).type =
        "risk_update" ∧
      data_keys (pathway_broadcast_message risk_id eid ety sc lvl f factors ts) =
        ["id", "entity_id", "entity_type", "risk_score", "risk_level", "confidence",
         "features", "risk_factors", "source", "timestamp"] ∧
      (fallback_broadcast_message risk_id eid ety sc lvl f factors ts).type =
        "risk_update" ∧
      data_keys (fallback_broadcast_message risk_id eid ety sc lvl f factors ts) =
        ["id", "entity_id", "entity_type", "risk_score", "risk_level", "confidence",
         "features", "risk_factors", "source", "timestamp"] :=
  ⟨rfl, rfl, rfl, rfl⟩

/-! ## Claims about the Black-76 pricing engine -/

namespace Black76

lemma normPdf_pos (x : ℝ) : 0 < normPdf x := by
  unfold normPdf
  have h2 : (0 : ℝ) < 2 * Real.pi := by positivity
  positivity

lemma gauss_integrable :
    MeasureTheory.Integrable (fun t : ℝ => Real.exp (-(t ^ 2) / 2)) := by
  have h := integrable_exp_neg_mul_sq (b := (1 : ℝ) / 2) (by norm_num)
  have he : (fun t : ℝ => Real.exp (-(1 / 2) * t ^ 2)) =
      (fun t : ℝ => Real.exp (-(t ^ 2) / 2)) := by
    funext t; ring_nf
  rwa [he] at h

lemma gauss_total :
    (∫ t : ℝ, Real.exp (-(t ^ 2) / 2)) = Real.sqrt (2 * Real.pi) := by
  have h := integral_gaussian (1 / 2)
  have he : (fun t : ℝ => Real.exp (-(1 / 2) * t ^ 2)) =
      (fun t : ℝ => Real.exp (-(t ^ 2) / 2)) := by
    funext t; ring_nf
  rw [he] at h
  rw [h]
  congr 1
  rw [div_div_eq_mul_div]
  ring

lemma gauss_reflect (x : ℝ) :
    (∫ t in Set.Iic (-x), Real.exp (-(t ^ 2) / 2)) =
      ∫ t in Set.Ioi x, Real.exp (-(t ^ 2) / 2) := by
  have h := integral_comp_neg_Iic (-x) (fun t : ℝ => Real.exp (-(t ^ 2) / 2))
  simp only [neg_sq, neg_neg] at h
  exact h

/-- The standard normal CDF satisfies Φ(x) + Φ(−x) = 1. -/
lemma normCdf_add_neg (x : ℝ) : normCdf x + normCdf (-x) = 1 := by
  unfold normCdf
  have hc : Real.sqrt (2 * Real.pi) ≠ 0 := by
    have h2 : (0 : ℝ) < 2 * Real.pi := by positivity
    exact ne_of_gt (Real.sqrt_pos.mpr h2)
  rw [gauss_reflect, ← mul_add,
    intervalIntegral.integral_Iic_add_Ioi gauss_integrable.integrableOn
      gauss_integrable.integrableOn,
    gauss_total, inv_mul_cancel₀ hc]

lemma calculate_d1_d2_pos (F K T σ : ℝ) (hT : 0 < T) (hσ : 0 < σ)
    (hK : K ≠ 0) :
    calculate_d1_d2 F K T σ = .ok (d1 F K T σ, d2 F K T σ) := by
  simp [calculate_d1_d2, not_le.mpr hT, not_le.mpr hσ, hK]

/-- With valid time and volatility but a zero strike, the engine fails with
the division error, as the Python float division does. -/
lemma calculate_d1_d2_zero_strike (F T σ : ℝ) (hT : 0 < T) (hσ : 0 < σ) :
    calculate_d1_d2 F 0 T σ = .error .zeroDivision := by
  simp [calculate_d1_d2, not_le.mpr hT, not_le.mpr hσ]

lemma calculate_d1_d2_err_time (F K T σ : ℝ) (hT : T ≤ 0) :
    calculate_d1_d2 F K T σ = .error .invalidTime := by
  simp [calculate_d1_d2, hT]

lemma calculate_d1_d2_err_vol (F K T σ : ℝ) (hT : 0 < T) (hσ : σ ≤ 0) :
    calculate_d1_d2 F K T σ = .error .invalidVol := by
  simp [calculate_d1_d2, not_le.mpr hT, hσ]

lemma price_call_pos (F K T σ r : ℝ) (hT : 0 < T) (hσ : 0 < σ) (hK : K ≠ 0) :
    calculate_option_price F K T σ r "call" =
      .ok (Real.exp (-r * T) *
        (F * normCdf (d1 F K T σ) - K * normCdf (d2 F K T σ))) := by
  rw [calculate_option_price, calculate_d1_d2_pos F K T σ hT hσ hK]
  rfl

lemma price_put_pos (F K T σ r : ℝ) (hT : 0 < T) (hσ : 0 < σ) (hK : K ≠ 0) :
    calculate_option_price F K T σ r "put" =
      .ok (Real.exp (-r * T) *
        (K * normCdf (-(d2 F K T σ)) - F * normCdf (-(d1 F K T σ)))) := by
  rw [calculate_option_price, calculate_d1_d2_pos F K T σ hT hσ hK]
  rfl

/-- `calculate_all_greeks` on a call with positive time and volatility. -/
lemma all_greeks_call (F K T σ r : ℝ) (hT : 0 < T) (hσ : 0 < σ) (hK : K ≠ 0) :
    calculate_all_greeks F K T σ r "call" = .ok
      { price := Real.exp (-r * T) *
          (F * normCdf (d1 F K T σ) - K * normCdf (d2 F K T σ))
        delta := Real.exp (-r * T) * normCdf (d1 F K T σ)
        gamma := Real.exp (-r * T) * normPdf (d1 F K T σ) / (F * σ * Real.sqrt T)
        vega := Real.exp (-r * T) * F * normPdf (d1 F K T σ) * Real.sqrt T / 100
        theta := (-(Real.exp (-r * T) * F * normPdf (d1 F K T σ) * σ) /
            (2 * Real.sqrt T) - r * Real.exp (-r * T) * K * normCdf (d2 F K T σ)) / 365
        rho := T * Real.exp (-r * T) * K * normCdf (d2 F K T σ) / 100 } := by
  rw [calculate_all_greeks, calculate_option_price, calculate_delta,
    calculate_gamma, calculate_vega, calculate_theta, calculate_rho,
    calculate_d1_d2_pos F K T σ hT hσ hK]
  rfl

/-- `calculate_all_greeks` on a put with positive time and volatility. -/
lemma all_greeks_put (F K T σ r : ℝ) (hT : 0 < T) (hσ : 0 < σ) (hK : K ≠ 0) :
    calculate_all_greeks F K T σ r "put" = .ok
      { price := Real.exp (-r * T) *
          (K * normCdf (-(d2 F K T σ)) - F * normCdf (-(d1 F K T σ)))
        delta := -(Real.exp (-r * T) * normCdf (-(d1 F K T σ)))
        gamma := Real.exp (-r * T) * normPdf (d1 F K T σ) / (F * σ * Real.sqrt T)
        vega := Real.exp (-r * T) * F * normPdf (d1 F K T σ) * Real.sqrt T / 100
        theta := (-(Real.exp (-r * T) * F * normPdf (d1 F K T σ) * σ) /
            (2 * Real.sqrt T) + r * Real.exp (-r * T) * K * normCdf (-(d2 F K T σ))) / 365
        rho := -(T * Real.exp (-r * T) * K * normCdf (-(d2 F K T σ))) / 100 } := by
  rw [calculate_all_greeks, calculate_option_price, calculate_delta,
    calculate_gamma, calculate_vega, calculate_theta, calculate_rho,
    calculate_d1_d2_pos F K T σ hT hσ hK]
  rfl

lemma all_greeks_err_time (F K T σ r : ℝ) (kind : String) (hT : T ≤ 0) :
    calculate_all_greeks F K T σ r kind = .error .invalidTime := by
  rw [calculate_all_greeks, calculate_option_price,
    calculate_d1_d2_err_time F K T σ hT]
  rfl

lemma all_greeks_err_vol (F K T σ r : ℝ) (kind : String) (hT : 0 < T) (hσ : σ ≤ 0) :
    calculate_all_greeks F K T σ r kind = .error .invalidVol := by
  rw [calculate_all_greeks, calculate_option_price,
    calculate_d1_d2_err_vol F K T σ hT hσ]
  rfl

end Black76

open Black76

/-- C5: for spot > 0, strike > 0 and a valid option kind, the pricing engine
fails (raises) exactly when time_to_expiry ≤ 0 or volatility ≤ 0; with
positive time and volatility it returns a result. -/
theorem pricing_invalid_input (F K T σ r : ℝ) (kind : String)
    (_hF : 0 < F) (hK : 0 < K) (hkind : kind = "call" ∨ kind = "put") :
    (calculate_all_greeks F K T σ r kind).isOk = true ↔ 0 < T ∧ 0 < σ := by
  constructor
  · intro h
    have hT : 0 < T := by
      by_contra hT
      push_neg at hT
      rw [all_greeks_err_time F K T σ r kind hT] at h
      simp [Except.isOk, Except.toBool] at h
    have hσ : 0 < σ := by
      by_contra hs
      push_neg at hs
      rw [all_greeks_err_vol F K T σ r kind hT hs] at h
      simp [Except.isOk, Except.toBool] at h
    exact ⟨hT, hσ⟩
  · rintro ⟨hT, hσ⟩
    rcases hkind with h | h <;> subst h
    · rw [all_greeks_call F K T σ r hT hσ hK.ne']; rfl
    · rw [all_greeks_put F K T σ r hT hσ hK.ne']; rfl

/-- Witness for C5: fails at T = 0 and at vol = 0, succeeds at the spec's
reference inputs. -/
theorem pricing_invalid_input_witness :
    (calculate_all_greeks 19500 19500 0 (18 / 100) (65 / 1000) "call").isOk ≠ true ∧
      (calculate_all_greeks 19500 19500 (822 / 10000) 0 (65 / 1000) "put").isOk ≠ true ∧
      (calculate_all_greeks 19500 19500 (822 / 10000) (18 / 100) (65 / 1000) "call").isOk =
        true := by
  refine ⟨fun h => ?_, fun h => ?_, ?_⟩
  · exact absurd ((pricing_invalid_input 19500 19500 0 (18 / 100) (65 / 1000) "call"
      (by norm_num) (by norm_num) (Or.inl rfl)).mp h).1 (by norm_num)
  · exact absurd ((pricing_invalid_input 19500 19500 (822 / 10000) 0 (65 / 1000) "put"
      (by norm_num) (by norm_num) (Or.inr rfl)).mp h).2 (by norm_num)
  · exact (pricing_invalid_input 19500 19500 (822 / 10000) (18 / 100) (65 / 1000) "call"
      (by norm_num) (by norm_num) (Or.inl rfl)).mpr ⟨by norm_num, by norm_num⟩

/-- C6: put-call parity — for spot > 0, strike > 0 and the same inputs on
both legs, call price minus put price equals exp(−r·T)·(spot − strike),
exactly (hence within any tolerance). -/
theorem put_call_parity (F K T σ r : ℝ) (_hF : 0 < F) (hK : 0 < K)
    (hT : 0 < T) (hσ : 0 < σ) :
    ∃ c p : ℝ,
      calculate_option_price F K T σ r "call" = .ok c ∧
        calculate_option_price F K T σ r "put" = .ok p ∧
        c - p = Real.exp (-r * T) * (F - K) := by
  refine ⟨_, _, price_call_pos F K T σ r hT hσ hK.ne',
    price_put_pos F K T σ r hT hσ hK.ne', ?_⟩
  have h1 := normCdf_add_neg (d1 F K T σ)
  have h2 := normCdf_add_neg (d2 F K T σ)
  have e1 : normCdf (-(d1 F K T σ)) = 1 - normCdf (d1 F K T σ) := by linarith
  have e2 : normCdf (-(d2 F K T σ)) = 1 - normCdf (d2 F K T σ) := by linarith
  rw [e1, e2]
  ring

/-- Witness for C6 at spot = strike = 19500, T = 0.0822, vol = 0.18,
r = 0.065. -/
theorem put_call_parity_witness :
    ∃ c p : ℝ,
      calculate_option_price 19500 19500 (822 / 10000) (18 / 100) (65 / 1000) "call" =
          .ok c ∧
        calculate_option_price 19500 19500 (822 / 10000) (18 / 100) (65 / 1000) "put" =
          .ok p ∧
        c - p = Real.exp (-(65 / 1000) * (822 / 10000)) * (19500 - 19500) :=
  put_call_parity 19500 19500 (822 / 10000) (18 / 100) (65 / 1000)
    (by norm_num) (by norm_num) (by norm_num) (by norm_num)

/-- C7: for valid inputs (spot, strike, time, volatility all positive) and
either option kind the engine returns a result whose gamma and vega are
non-negative. -/
theorem gamma_vega_nonneg (F K T σ r : ℝ) (kind : String)
    (hF : 0 < F) (hK : 0 < K) (hT : 0 < T) (hσ : 0 < σ)
    (hkind : kind = "call" ∨ kind = "put") :
    ∃ g : Greeks, calculate_all_greeks F K T σ r kind = .ok g ∧
      0 ≤ g.gamma ∧ 0 ≤ g.vega := by
  have hpdf := (normPdf_pos (d1 F K T σ)).le
  have hγ : 0 ≤ Real.exp (-r * T) * normPdf (d1 F K T σ) / (F * σ * Real.sqrt T) :=
    div_nonneg (mul_nonneg (Real.exp_pos _).le hpdf)
      (mul_nonneg (mul_nonneg hF.le hσ.le) (Real.sqrt_nonneg _))
  have hv : 0 ≤ Real.exp (-r * T) * F * normPdf (d1 F K T σ) * Real.sqrt T / 100 :=
    div_nonneg (mul_nonneg (mul_nonneg (mul_nonneg (Real.exp_pos _).le hF.le) hpdf)
      (Real.sqrt_nonneg _)) (by norm_num)
  rcases hkind with h | h <;> subst h
  · exact ⟨_, all_greeks_call F K T σ r hT hσ hK.ne', hγ, hv⟩
  · exact ⟨_, all_greeks_put F K T σ r hT hσ hK.ne', hγ, hv⟩

/-- Witness for C7 at the spec's reference inputs. -/
theorem gamma_vega_nonneg_witness :
    ∃ g : Greeks,
      calculate_all_greeks 19500 19500 (822 / 10000) (18 / 100) (65 / 1000) "put" =
          .ok g ∧
        0 ≤ g.gamma ∧ 0 ≤ g.vega :=
  gamma_vega_nonneg 19500 19500 (822 / 10000) (18 / 100) (65 / 1000) "put"
    (by norm_num) (by norm_num) (by norm_num) (by norm_num) (Or.inr rfl)

end RiskMgmt
